/-
Verification of the balance-resolution subsystem and scan loop of
btc_brute_lottery (src/main.py), as a shallow embedding in Lean 4.

The embedding models:
  * check_balance (src/main.py lines 37-98): the recursive retry state
    machine with primary/fallback providers.  Each resolution attempt is
    a pure step function on the upstream responses; the upstream is a
    function from attempt index (the current retry count) to responses.
  * log_error: modelled as the list of ErrorRecords accumulated in the
    outcome (the error log file, observationally).
  * save_found_address / save_cold_log and one iteration of main's scan
    loop (lines 147-200), including the three running counters.

Python ints are Int; HTTP status codes are Nat; time.sleep durations are
recorded in a list instead of blocking.  A response body is an Option of
a record of the fields the code reads: None models a body whose JSON
parse raises.
-/
import Mathlib

/-- MAX_RETRIES = 3 (src/main.py line 15). -/
def MAX_RETRIES : Nat := 3

/-- BALANCE_RETRY_DELAY = 5 seconds (src/main.py line 14). -/
def BALANCE_RETRY_DELAY : Nat := 5

/-- The error kinds passed to log_error by check_balance. -/
inductive ErrorType where
  | MAX_RETRIES_EXCEEDED
  | JSON_DECODE_ERROR
  | FALLBACK_API_ERROR
  | RATE_LIMIT
  | SERVER_ERROR
  | API_ERROR
  | TIMEOUT
  | CONNECTION_ERROR
  | UNKNOWN_ERROR
deriving DecidableEq

/-- One line of the error log: log_error writes error_type and details
(the timestamp and wallet metadata are irrelevant to the claims). -/
structure ErrorRecord where
  error_type : ErrorType
  details : String
deriving DecidableEq

/-- The part of the primary provider's JSON body read by the code:
data.get("final_balance", 0).  The field is optional. -/
structure PrimaryBody where
  final_balance : Option Int
deriving DecidableEq

/-- chain_stats object of the fallback provider's body; both fields
optional, read with .get(..., 0). -/
structure ChainStats where
  funded_txo_sum : Option Int
  spent_txo_sum : Option Int
deriving DecidableEq

/-- The part of the fallback provider's JSON body read by the code:
data.get("chain_stats", {}). -/
structure FallbackBody where
  chain_stats : Option ChainStats
deriving DecidableEq

/-- Outcome of the primary requests.get: either it completed with a
status code and a body (None body = resp.json() raises), or it raised
requests.exceptions.Timeout, requests.exceptions.ConnectionError, or some
other exception (caught by the generic except clause). -/
inductive PrimaryResponse where
  | ok (code : Nat) (body : Option PrimaryBody)
  | timeout
  | connError
  | otherError (msg : String)
deriving DecidableEq

/-- Outcome of the fallback requests.get inside the 429 branch: either it
completed with a status code and a body (None body = resp.json() raises),
or the request itself raised (any exception: all are caught by the inner
except Exception). -/
inductive FallbackResult where
  | ok (code : Nat) (body : Option FallbackBody)
  | exc (msg : String)
deriving DecidableEq

/-- Observable effects of one resolution attempt (one pass through the
try block of check_balance, lines 43-98): terminal = some r means the
attempt returned r; terminal = none means it falls through to the
recursive call.  errors are the log_error calls in order, sleeps the
time.sleep durations in order, primaryCalls/fallbackCalls the number of
requests.get calls against each provider. -/
structure StepOut where
  terminal : Option Int
  errors : List ErrorRecord
  sleeps : List Nat
  primaryCalls : Nat
  fallbackCalls : Nat
deriving DecidableEq

/-- One resolution attempt of check_balance (the body of the try block,
src/main.py lines 43-98), given the primary provider's response and the
fallback provider's response (the latter is consulted only in the 429
branch).  Note that in the 429 branch the Python variable resp is
reassigned to the fallback response, so the later RATE_LIMIT log reports
the fallback's status code whenever the fallback requests.get completed;
and no FALLBACK_API_ERROR is logged when the fallback completed with a
non-200 status, because that log call sits in the except clause only. -/
def attempt_step (p : PrimaryResponse) (f : FallbackResult) : StepOut :=
  match p with
  | .ok code body =>
    if code = 200 then
      match body with
      | some data =>
        ⟨some (data.final_balance.getD 0), [], [], 1, 0⟩
      | none =>
        ⟨none, [⟨.JSON_DECODE_ERROR, "Failed to parse response as JSON"⟩],
          [BALANCE_RETRY_DELAY], 1, 0⟩
    else if code = 429 then
      match f with
      | .ok fcode fbody =>
        if fcode = 200 then
          match fbody with
          | some data =>
            let cs := data.chain_stats.getD ⟨none, none⟩
            ⟨some (cs.funded_txo_sum.getD 0 - cs.spent_txo_sum.getD 0),
              [], [], 1, 1⟩
          | none =>
            ⟨none, [⟨.FALLBACK_API_ERROR, "Error: JSON decode error"⟩,
                    ⟨.RATE_LIMIT, "Status: " ++ toString fcode⟩],
              [185], 1, 1⟩
        else
          ⟨none, [⟨.RATE_LIMIT, "Status: " ++ toString fcode⟩], [185], 1, 1⟩
      | .exc msg =>
        ⟨none, [⟨.FALLBACK_API_ERROR, "Error: " ++ msg⟩,
                ⟨.RATE_LIMIT, "Status: " ++ toString code⟩],
          [185], 1, 1⟩
    else if code = 404 then
      ⟨some 0, [], [], 1, 0⟩
    else if 500 ≤ code then
      ⟨none, [⟨.SERVER_ERROR, "Status: " ++ toString code⟩],
        [BALANCE_RETRY_DELAY], 1, 0⟩
    else
      ⟨none, [⟨.API_ERROR, "Status: " ++ toString code⟩],
        [BALANCE_RETRY_DELAY], 1, 0⟩
  | .timeout =>
    ⟨none, [⟨.TIMEOUT, "Request timed out"⟩], [BALANCE_RETRY_DELAY], 1, 0⟩
  | .connError =>
    ⟨none, [⟨.CONNECTION_ERROR, "Failed to connect to API"⟩],
      [BALANCE_RETRY_DELAY], 1, 0⟩
  | .otherError msg =>
    ⟨some 0, [⟨.UNKNOWN_ERROR, "Error: " ++ msg⟩], [], 1, 0⟩

/-- The upstream environment for one resolution: the responses the two
providers would give when queried during the attempt at a given retry
count. -/
structure Upstream where
  primary : Nat → PrimaryResponse
  fallback : Nat → FallbackResult

/-- Observable effects of a whole call to check_balance. -/
structure Outcome where
  result : Int
  errors : List ErrorRecord
  sleeps : List Nat
  primaryCalls : Nat
  fallbackCalls : Nat
deriving DecidableEq

/-- Prefix the effects of one attempt onto the outcome of the recursive
call that follows it. -/
def Outcome.prepend (errs : List ErrorRecord) (slps : List Nat)
    (pc fc : Nat) (o : Outcome) : Outcome :=
  ⟨o.result, errs ++ o.errors, slps ++ o.sleeps,
    pc + o.primaryCalls, fc + o.fallbackCalls⟩

/-- check_balance (src/main.py lines 37-98).  Guard first: retry_count >=
MAX_RETRIES logs MAX_RETRIES_EXCEEDED and returns 0.  Otherwise one
attempt runs against the upstream at index retry_count; a terminal
attempt yields its result, a non-terminal one recurses at
retry_count + 1. -/
def check_balance (env : Upstream) (retry_count : Nat) : Outcome :=
  if _h : MAX_RETRIES ≤ retry_count then
    ⟨0, [⟨.MAX_RETRIES_EXCEEDED, "Maximum retries exceeded"⟩], [], 0, 0⟩
  else
    match attempt_step (env.primary retry_count) (env.fallback retry_count) with
    | ⟨some r, errs, slps, pc, fc⟩ => ⟨r, errs, slps, pc, fc⟩
    | ⟨none, errs, slps, pc, fc⟩ =>
        Outcome.prepend errs slps pc fc (check_balance env (retry_count + 1))
termination_by MAX_RETRIES - retry_count
decreasing_by omega

/-- Count the error-log records of a given kind. -/
def countErr (t : ErrorType) (l : List ErrorRecord) : Nat :=
  (l.filter (fun r => decide (r.error_type = t))).length

/-- A fallback call that fails in the sense of the spec: it raised, or it
completed with a non-200 status, or its 200 body was unparseable. -/
def fallbackFails : FallbackResult → Bool
  | .ok c b => !(decide (c = 200) && b.isSome)
  | .exc _ => true

/-- A fallback call during which an exception was raised (the request
itself raised, or resp.json() on its 200 response raised): exactly the
cases in which the except clause logs FALLBACK_API_ERROR. -/
def fallbackRaises : FallbackResult → Bool
  | .ok c b => decide (c = 200) && b.isNone
  | .exc _ => true

/-- The primary response's parsed body, if any, yields a non-negative
balance after the .get default. -/
def PrimaryResponse.bodyNonneg : PrimaryResponse → Prop
  | .ok _ (some pb) => 0 ≤ pb.final_balance.getD 0
  | _ => True

/-- The fallback response's parsed body, if any, has funded_txo_sum at
least spent_txo_sum after the .get defaults. -/
def FallbackResult.bodySolvent : FallbackResult → Prop
  | .ok _ (some fb) =>
      (fb.chain_stats.getD ⟨none, none⟩).spent_txo_sum.getD 0
        ≤ (fb.chain_stats.getD ⟨none, none⟩).funded_txo_sum.getD 0
  | _ => True

/-- A generated credential: the (address, phrase, private key) triple
produced by mnemo.generate and generate_address_from_phrase. -/
structure Credential where
  address : String
  phrase : String
  private_key : String
deriving DecidableEq

/-- One line of found_addresses.txt as written by save_found_address
(src/main.py lines 100-115; timestamp irrelevant to the claims). -/
structure FoundRecord where
  address : String
  balance : Int
  phrase : String
  private_key : String
deriving DecidableEq

/-- One line of cold_log.jsonl as written by save_cold_log
(src/main.py lines 132-145). -/
structure ColdRecord where
  address : String
  phrase : String
  private_key : String
  has_balance : Bool
deriving DecidableEq

/-- The mutable state of main's scan loop: the three running counters
(src/main.py lines 156-158) and the three append-only log files,
observationally as lists of records. -/
structure ScanState where
  total_generated : Nat
  found_with_balance : Nat
  error_count : Nat
  error_log : List ErrorRecord
  found_log : List FoundRecord
  cold_log : List ColdRecord
deriving DecidableEq

/-- save_found_address (src/main.py lines 100-115): append one
FoundRecord to found_addresses.txt. -/
def save_found_address (log : List FoundRecord) (address : String)
    (balance : Int) (phrase private_key : String) : List FoundRecord :=
  log ++ [⟨address, balance, phrase, private_key⟩]

/-- save_cold_log (src/main.py lines 132-145): append one ColdRecord to
cold_log.jsonl. -/
def save_cold_log (log : List ColdRecord) (c : Credential)
    (has_balance : Bool) : List ColdRecord :=
  log ++ [⟨c.address, c.phrase, c.private_key, has_balance⟩]

/-- One iteration of main's scan loop (src/main.py lines 163-200), given
the outcome of credential generation (none models a null address from
generate_address_from_phrase, which skips the whole if-address block) and
the upstream environment seen by this iteration's check_balance call.
Mirrors the source order: increment total_generated, resolve the balance
(whose log_error calls append to the error log), write the cold-log
record, and when balance > 0 increment found_with_balance and write the
found record.  error_count is initialized and printed by main but never
incremented anywhere in the source. -/
def scan_iteration (env : Upstream) (cred : Option Credential)
    (st : ScanState) : ScanState :=
  match cred with
  | none => st
  | some c =>
    let st1 := { st with total_generated := st.total_generated + 1 }
    let out := check_balance env 0
    let has_balance : Bool := decide (0 < out.result)
    let st2 := { st1 with
      error_log := st1.error_log ++ out.errors,
      cold_log := save_cold_log st1.cold_log c has_balance }
    if has_balance then
      { st2 with
        found_with_balance := st2.found_with_balance + 1,
        found_log := save_found_address st2.found_log c.address out.result
          c.phrase c.private_key }
    else st2

/-- Upstream whose primary always answers 200 with final_balance 7. -/
def envC4 : Upstream :=
  ⟨fun _ => .ok 200 (some ⟨some 7⟩), fun _ => .exc "unused"⟩

/-- Upstream whose primary always answers 404. -/
def envC5 : Upstream :=
  ⟨fun _ => .ok 404 none, fun _ => .exc "unused"⟩

/-- Upstream whose primary always answers 429 and whose fallback answers
200 with funded_txo_sum 10 and spent_txo_sum 3. -/
def envC2 : Upstream :=
  ⟨fun _ => .ok 429 none, fun _ => .ok 200 (some ⟨some ⟨some 10, some 3⟩⟩)⟩

/-- Upstream whose primary always answers 500 with an unparseable body. -/
def envC3 : Upstream :=
  ⟨fun _ => .ok 500 none, fun _ => .exc "unused"⟩

/-- Upstream answering 429 on the first attempt and 404 afterwards, with
a fallback that completes with status 503 (fails without raising). -/
def envC1 : Upstream :=
  ⟨fun k => match k with | 0 => .ok 429 none | _ => .ok 404 none,
   fun _ => .ok 503 none⟩

/-- Upstream for the C1 amended-claim witness: 429 on the first attempt
with a raising fallback, then 404. -/
def envC1w : Upstream :=
  ⟨fun k => match k with | 0 => .ok 429 none | _ => .ok 404 none,
   fun _ => .exc "connection refused"⟩

/-- Upstream whose primary answers 200 with final_balance -5. -/
def envC6 : Upstream :=
  ⟨fun _ => .ok 200 (some ⟨some (-5)⟩), fun _ => .exc "unused"⟩

/-- Upstream with well-formed non-negative bodies on both providers. -/
def envC6w : Upstream :=
  ⟨fun _ => .ok 200 (some ⟨some 5⟩),
   fun _ => .ok 200 (some ⟨some ⟨some 9, some 4⟩⟩)⟩

/-- Upstream for the C9 failing input: primary answers 500 on every
attempt, so check_balance logs three SERVER_ERROR records and one
MAX_RETRIES_EXCEEDED record. -/
def envC9 : Upstream :=
  ⟨fun _ => .ok 500 none, fun _ => .exc "unused"⟩

/-- A concrete generated credential. -/
def credC9 : Credential :=
  ⟨"1BoatSLRHtKNngkdXEeobR76b53LETtpyT", "abandon ability able", "L1aW4aubDFB7yfras"⟩

/-- The scan-loop state at startup: all counters 0, all logs empty. -/
def scanState0 : ScanState := ⟨0, 0, 0, [], [], []⟩

/-- Upstream answering 429 on the first attempt and 404 afterwards, with
a fallback that itself completes with status 429 (rate-limited too). -/
def envC10 : Upstream :=
  ⟨fun k => match k with | 0 => .ok 429 none | _ => .ok 404 none,
   fun _ => .ok 429 none⟩

/-- check_balance at an exhausted retry counter: the guard on line 39
fires, logging MAX_RETRIES_EXCEEDED and returning 0. -/
theorem check_balance_ge (env : Upstream) (n : Nat) (h : MAX_RETRIES ≤ n) :
    check_balance env n =
      ⟨0, [⟨.MAX_RETRIES_EXCEEDED, "Maximum retries exceeded"⟩], [], 0, 0⟩ := by
  rw [check_balance]
  simp [h]

/-- check_balance below the retry limit, when the attempt is terminal. -/
theorem check_balance_done (env : Upstream) (n : Nat) (h : n < MAX_RETRIES)
    (r : Int) (errs : List ErrorRecord) (slps : List Nat) (pc fc : Nat)
    (hs : attempt_step (env.primary n) (env.fallback n) = ⟨some r, errs, slps, pc, fc⟩) :
    check_balance env n = ⟨r, errs, slps, pc, fc⟩ := by
  rw [check_balance]
  rw [dif_neg (by omega)]
  rw [hs]

/-- check_balance below the retry limit, when the attempt retries: the
attempt's effects prefix those of the recursive call at retry n + 1. -/
theorem check_balance_retry (env : Upstream) (n : Nat) (h : n < MAX_RETRIES)
    (errs : List ErrorRecord) (slps : List Nat) (pc fc : Nat)
    (hs : attempt_step (env.primary n) (env.fallback n) = ⟨none, errs, slps, pc, fc⟩) :
    check_balance env n = Outcome.prepend errs slps pc fc (check_balance env (n + 1)) := by
  rw [check_balance]
  rw [dif_neg (by omega)]
  rw [hs]

/-- A 200 response with a parseable body is terminal with the
final_balance field (default 0). -/
theorem attempt_step_200_parsed (pb : PrimaryBody) (f : FallbackResult) :
    attempt_step (.ok 200 (some pb)) f =
      ⟨some (pb.final_balance.getD 0), [], [], 1, 0⟩ := rfl

/-- A 404 response is terminal with balance 0. -/
theorem attempt_step_404 (b : Option PrimaryBody) (f : FallbackResult) :
    attempt_step (.ok 404 b) f = ⟨some 0, [], [], 1, 0⟩ := rfl

/-- A 5xx response logs SERVER_ERROR, sleeps the retry delay and
retries. -/
theorem attempt_step_server (c : Nat) (b : Option PrimaryBody)
    (f : FallbackResult) (h : 500 ≤ c) :
    attempt_step (.ok c b) f =
      ⟨none, [⟨.SERVER_ERROR, "Status: " ++ toString c⟩],
        [BALANCE_RETRY_DELAY], 1, 0⟩ := by
  simp only [attempt_step]
  rw [if_neg (by omega), if_neg (by omega), if_neg (by omega), if_pos h]

/-- A 429 response with a fallback that completes with a 200 parseable
body is terminal with funded minus spent. -/
theorem attempt_step_429_fb_ok200 (b : Option PrimaryBody) (fb : FallbackBody) :
    attempt_step (.ok 429 b) (.ok 200 (some fb)) =
      ⟨some ((fb.chain_stats.getD ⟨none, none⟩).funded_txo_sum.getD 0
              - (fb.chain_stats.getD ⟨none, none⟩).spent_txo_sum.getD 0),
        [], [], 1, 1⟩ := rfl

/-- A 429 response whose fallback completes with a 200 but unparseable
body: resp.json() raises, so FALLBACK_API_ERROR is logged and the later
RATE_LIMIT logs the reassigned resp's status 200. -/
theorem attempt_step_429_fb_badjson (b : Option PrimaryBody) :
    attempt_step (.ok 429 b) (.ok 200 none) =
      ⟨none, [⟨.FALLBACK_API_ERROR, "Error: JSON decode error"⟩,
              ⟨.RATE_LIMIT, "Status: " ++ toString (200 : Nat)⟩],
        [185], 1, 1⟩ := rfl

/-- A 429 response whose fallback completes with a non-200 status: no
exception is raised, so no FALLBACK_API_ERROR; only RATE_LIMIT is logged
and it reports the fallback's status code. -/
theorem attempt_step_429_fb_status (b : Option PrimaryBody) (c : Nat)
    (fb : Option FallbackBody) (h : c ≠ 200) :
    attempt_step (.ok 429 b) (.ok c fb) =
      ⟨none, [⟨.RATE_LIMIT, "Status: " ++ toString c⟩], [185], 1, 1⟩ := by
  simp [attempt_step, h]

/-- A 429 response whose fallback request raises: FALLBACK_API_ERROR is
logged, and the RATE_LIMIT record reports the primary's status 429
because resp was never reassigned. -/
theorem attempt_step_429_fb_exc (b : Option PrimaryBody) (msg : String) :
    attempt_step (.ok 429 b) (.exc msg) =
      ⟨none, [⟨.FALLBACK_API_ERROR, "Error: " ++ msg⟩,
              ⟨.RATE_LIMIT, "Status: " ++ toString (429 : Nat)⟩],
        [185], 1, 1⟩ := rfl

/-- Every attempt issues exactly one primary request. -/
theorem attempt_step_primaryCalls (p : PrimaryResponse) (f : FallbackResult) :
    (attempt_step p f).primaryCalls = 1 := by
  cases p with
  | ok code body =>
    cases body <;> cases f <;> simp only [attempt_step] <;>
      split <;> (try split) <;> (try split) <;> (try split) <;> rfl
  | timeout => rfl
  | connError => rfl
  | otherError msg => rfl

/-- C4: for every address whose first primary request (retry count 0)
returns HTTP 200 with a parseable JSON body, check_balance returns
exactly the body's final_balance value (0 when the field is missing),
performs zero sleeps, and writes zero ErrorRecords. -/
theorem c4_immediate_200_returns_parsed_balance (env : Upstream)
    (pb : PrimaryBody) (h : env.primary 0 = .ok 200 (some pb)) :
    check_balance env 0 = ⟨pb.final_balance.getD 0, [], [], 1, 0⟩ :=
  check_balance_done env 0 (by decide) _ _ _ _ _
    (by rw [h, attempt_step_200_parsed])

/-- C4 witness: on an upstream answering 200 with final_balance 7, the
outcome is balance 7 with no sleeps and no error records. -/
theorem c4_witness : check_balance envC4 0 = ⟨7, [], [], 1, 0⟩ :=
  c4_immediate_200_returns_parsed_balance envC4 ⟨some 7⟩ rfl

/-- C5: for every address whose primary request returns HTTP 404,
check_balance returns 0 as an immediate terminal result, with zero
retries, zero sleeps, zero fallback calls, and zero ErrorRecords.  (The
hypothesis n < MAX_RETRIES says a primary request is actually made at
this retry count.) -/
theorem c5_404_returns_zero_immediately (env : Upstream) (n : Nat)
    (b : Option PrimaryBody) (h1 : n < MAX_RETRIES)
    (h2 : env.primary n = .ok 404 b) :
    check_balance env n = ⟨0, [], [], 1, 0⟩ :=
  check_balance_done env n h1 _ _ _ _ _ (by rw [h2, attempt_step_404])

/-- C5 witness: on an upstream answering 404, the outcome at retry 0 is
balance 0, one primary call, no fallback calls, sleeps or errors. -/
theorem c5_witness : check_balance envC5 0 = ⟨0, [], [], 1, 0⟩ :=
  c5_404_returns_zero_immediately envC5 0 none (by decide) rfl

/-- C2: for every resolution attempt in which the primary responds 429
and the fallback then responds 200 with a parseable body, check_balance
returns chain_stats.funded_txo_sum minus chain_stats.spent_txo_sum (each
defaulting to 0 when absent) as a terminal result, without incrementing
the retry counter (no recursion: the attempt is terminal), with exactly
one fallback call and no 185-second sleep (no sleep at all). -/
theorem c2_429_fallback_success_terminal (env : Upstream) (n : Nat)
    (pb : Option PrimaryBody) (fb : FallbackBody) (h1 : n < MAX_RETRIES)
    (h2 : env.primary n = .ok 429 pb) (h3 : env.fallback n = .ok 200 (some fb)) :
    check_balance env n =
      ⟨(fb.chain_stats.getD ⟨none, none⟩).funded_txo_sum.getD 0
         - (fb.chain_stats.getD ⟨none, none⟩).spent_txo_sum.getD 0,
        [], [], 1, 1⟩ :=
  check_balance_done env n h1 _ _ _ _ _
    (by rw [h2, h3, attempt_step_429_fb_ok200])

/-- C2 witness: 429 with a fallback answering funded 10, spent 3 yields
balance 7, one primary and one fallback call, no sleeps, no errors. -/
theorem c2_witness : check_balance envC2 0 = ⟨7, [], [], 1, 1⟩ :=
  c2_429_fallback_success_terminal envC2 0 none ⟨some ⟨some 10, some 3⟩⟩
    (by decide) rfl rfl

/-- C3: for every address whose primary provider responds with a status
of 500 or greater on every request, check_balance starting at retry
count 0 makes exactly MAX_RETRIES = 3 primary requests, emits one
SERVER_ERROR record per attempt plus exactly one MAX_RETRIES_EXCEEDED
record (and nothing else), and returns 0. -/
theorem c3_all_5xx_exhausts_retries (env : Upstream)
    (h : ∀ k, ∃ c b, env.primary k = .ok c b ∧ 500 ≤ c) :
    (check_balance env 0).result = 0 ∧
    (check_balance env 0).primaryCalls = MAX_RETRIES ∧
    countErr .SERVER_ERROR (check_balance env 0).errors = MAX_RETRIES ∧
    countErr .MAX_RETRIES_EXCEEDED (check_balance env 0).errors = 1 ∧
    (check_balance env 0).errors.length = MAX_RETRIES + 1 := by
  obtain ⟨c0, b0, h0, hc0⟩ := h 0
  obtain ⟨c1, b1, h1, hc1⟩ := h 1
  obtain ⟨c2, b2, h2, hc2⟩ := h 2
  rw [check_balance_retry env 0 (by decide) _ _ _ _
        (by rw [h0, attempt_step_server _ _ _ hc0]),
      check_balance_retry env 1 (by decide) _ _ _ _
        (by rw [h1, attempt_step_server _ _ _ hc1]),
      check_balance_retry env 2 (by decide) _ _ _ _
        (by rw [h2, attempt_step_server _ _ _ hc2]),
      check_balance_ge env 3 (by decide)]
  simp [Outcome.prepend, countErr, List.filter_cons, MAX_RETRIES]

/-- C3 witness: on an upstream answering 500 on every attempt, the
resolution from retry 0 returns 0, makes 3 primary requests, and logs 3
SERVER_ERROR records plus 1 MAX_RETRIES_EXCEEDED record. -/
theorem c3_witness :
    (check_balance envC3 0).result = 0 ∧
    (check_balance envC3 0).primaryCalls = MAX_RETRIES ∧
    countErr .SERVER_ERROR (check_balance envC3 0).errors = MAX_RETRIES ∧
    countErr .MAX_RETRIES_EXCEEDED (check_balance envC3 0).errors = 1 ∧
    (check_balance envC3 0).errors.length = MAX_RETRIES + 1 :=
  c3_all_5xx_exhausts_retries envC3 (fun _ => ⟨500, none, rfl, by omega⟩)

/-- C1 counterexample: with the primary answering 429 and the fallback
completing with status 503 (a failure that does not raise), check_balance
logs zero FALLBACK_API_ERROR records — not exactly one as the claim
states — while still logging exactly one RATE_LIMIT record. -/
theorem c1_counterexample :
    envC1.fallback 0 = .ok 503 none ∧
    countErr .FALLBACK_API_ERROR (check_balance envC1 0).errors = 0 ∧
    countErr .RATE_LIMIT (check_balance envC1 0).errors = 1 := by
  have h1 : check_balance envC1 0 =
      Outcome.prepend [⟨.RATE_LIMIT, "Status: " ++ toString (503 : Nat)⟩]
        [185] 1 1 (check_balance envC1 1) :=
    check_balance_retry envC1 0 (by decide) _ _ _ _
      (attempt_step_429_fb_status none 503 none (by decide))
  have h2 : check_balance envC1 1 = ⟨0, [], [], 1, 0⟩ :=
    check_balance_done envC1 1 (by decide) _ _ _ _ _ (attempt_step_404 none _)
  rw [h1, h2]
  refine ⟨rfl, ?_, ?_⟩ <;> decide

/-- C1 amended: when the primary responds 429 and the single fallback
call fails, check_balance logs exactly one RATE_LIMIT record, performs
one 185-second cooldown sleep, makes one fallback call, and recurses with
the retry counter incremented by exactly 1; but a FALLBACK_API_ERROR
record is logged only when an exception is raised during the fallback
call (the request raised, or its 200 body failed to parse) — a fallback
that completes with a non-200 status logs no FALLBACK_API_ERROR. -/
theorem c1_429_fallback_failure_effects (env : Upstream) (n : Nat)
    (pb : Option PrimaryBody) (h1 : n < MAX_RETRIES)
    (h2 : env.primary n = .ok 429 pb)
    (h3 : fallbackFails (env.fallback n) = true) :
    countErr .RATE_LIMIT (check_balance env n).errors
      = 1 + countErr .RATE_LIMIT (check_balance env (n + 1)).errors ∧
    countErr .FALLBACK_API_ERROR (check_balance env n).errors
      = (if fallbackRaises (env.fallback n) then 1 else 0)
          + countErr .FALLBACK_API_ERROR (check_balance env (n + 1)).errors ∧
    (check_balance env n).sleeps = 185 :: (check_balance env (n + 1)).sleeps ∧
    (check_balance env n).result = (check_balance env (n + 1)).result ∧
    (check_balance env n).fallbackCalls
      = 1 + (check_balance env (n + 1)).fallbackCalls := by
  cases hf : env.fallback n with
  | ok c b =>
    by_cases hc : c = 200
    · subst hc
      cases b with
      | some fb =>
        rw [hf] at h3
        simp [fallbackFails] at h3
      | none =>
        rw [check_balance_retry env n h1 _ _ _ _
              (by rw [h2, hf, attempt_step_429_fb_badjson])]
        simp [Outcome.prepend, hf, fallbackRaises, countErr, List.filter_cons]
        omega
    · rw [check_balance_retry env n h1 _ _ _ _
            (by rw [h2, hf]; exact attempt_step_429_fb_status _ _ _ hc)]
      simp [Outcome.prepend, hf, fallbackRaises, hc, countErr, List.filter_cons]
      omega
  | exc msg =>
    rw [check_balance_retry env n h1 _ _ _ _
          (by rw [h2, hf, attempt_step_429_fb_exc])]
    simp [Outcome.prepend, hf, fallbackRaises, countErr, List.filter_cons]
    omega

/-- C1 witness: primary 429 then 404, fallback raising: one RATE_LIMIT
and one FALLBACK_API_ERROR record, one 185s sleep, retry counter moves
from 0 to 1. -/
theorem c1_witness :
    countErr .RATE_LIMIT (check_balance envC1w 0).errors
      = 1 + countErr .RATE_LIMIT (check_balance envC1w 1).errors ∧
    countErr .FALLBACK_API_ERROR (check_balance envC1w 0).errors
      = (if fallbackRaises (envC1w.fallback 0) then 1 else 0)
          + countErr .FALLBACK_API_ERROR (check_balance envC1w 1).errors ∧
    (check_balance envC1w 0).sleeps = 185 :: (check_balance envC1w 1).sleeps ∧
    (check_balance envC1w 0).result = (check_balance envC1w 1).result ∧
    (check_balance envC1w 0).fallbackCalls
      = 1 + (check_balance envC1w 1).fallbackCalls :=
  c1_429_fallback_failure_effects envC1w 0 none (by decide) rfl rfl

/-- C6 counterexample: with a primary body carrying final_balance -5,
check_balance returns -5, a negative value, so the returned value is not
a non-negative integer for arbitrary integer response bodies. -/
theorem c6_counterexample :
    (check_balance envC6 0).result = -5 ∧ (check_balance envC6 0).result < 0 := by
  have h : check_balance envC6 0 = ⟨-5, [], [], 1, 0⟩ :=
    check_balance_done envC6 0 (by decide) _ _ _ _ _
      (attempt_step_200_parsed ⟨some (-5)⟩ _)
  rw [h]
  exact ⟨rfl, by decide⟩

/-- A terminal attempt yields a non-negative result whenever the parsed
bodies are well-formed (non-negative final_balance, funded at least
spent). -/
theorem attempt_step_terminal_nonneg (p : PrimaryResponse) (f : FallbackResult)
    (hp : p.bodyNonneg) (hf : f.bodySolvent) (r : Int)
    (h : (attempt_step p f).terminal = some r) : 0 ≤ r := by
  cases p with
  | ok code body =>
    by_cases h200 : code = 200
    · subst h200
      cases body with
      | some data =>
        rw [attempt_step_200_parsed] at h
        simp only [PrimaryResponse.bodyNonneg] at hp
        simp only [StepOut.terminal, Option.some.injEq] at h
        omega
      | none => simp [attempt_step] at h
    · by_cases h429 : code = 429
      · subst h429
        cases f with
        | ok fcode fbody =>
          by_cases hf200 : fcode = 200
          · subst hf200
            cases fbody with
            | some data =>
              rw [attempt_step_429_fb_ok200] at h
              simp only [FallbackResult.bodySolvent] at hf
              simp only [StepOut.terminal, Option.some.injEq] at h
              omega
            | none =>
              rw [attempt_step_429_fb_badjson] at h
              simp at h
          · rw [attempt_step_429_fb_status _ _ _ hf200] at h
            simp at h
        | exc msg =>
          rw [attempt_step_429_fb_exc] at h
          simp at h
      · by_cases h404 : code = 404
        · subst h404
          rw [attempt_step_404] at h
          simp only [StepOut.terminal, Option.some.injEq] at h
          omega
        · by_cases h500 : 500 ≤ code
          · rw [attempt_step_server _ _ _ h500] at h
            simp at h
          · simp [attempt_step, h200, h429, h404, h500] at h
  | timeout => simp [attempt_step] at h
  | connError => simp [attempt_step] at h
  | otherError msg =>
    simp only [attempt_step, StepOut.terminal, Option.some.injEq] at h
    omega

/-- Auxiliary fuel induction for C6: the result of check_balance is
non-negative whenever every upstream body is well-formed. -/
theorem check_balance_nonneg_aux (m : Nat) : ∀ (env : Upstream) (n : Nat),
    MAX_RETRIES - n ≤ m →
    (∀ k, (env.primary k).bodyNonneg) →
    (∀ k, (env.fallback k).bodySolvent) →
    0 ≤ (check_balance env n).result := by
  induction m with
  | zero =>
    intro env n hm hp hf
    rw [check_balance_ge env n (by omega)]
  | succ m ih =>
    intro env n hm hp hf
    by_cases hn : MAX_RETRIES ≤ n
    · rw [check_balance_ge env n hn]
    · cases hstep : attempt_step (env.primary n) (env.fallback n) with
      | mk t errs slps pc fc =>
        cases t with
        | some r =>
          rw [check_balance_done env n (by omega) r errs slps pc fc hstep]
          exact attempt_step_terminal_nonneg _ _ (hp n) (hf n) r
            (by rw [hstep])
        | none =>
          rw [check_balance_retry env n (by omega) errs slps pc fc hstep]
          exact ih env (n + 1) (by omega) hp hf

/-- C6 amended: the value returned by check_balance is an integer that is
non-negative whenever every upstream response body is well-formed (every
parsed primary body has a non-negative final_balance after the default,
and every parsed fallback body has funded_txo_sum at least spent_txo_sum
after the defaults); for arbitrary integer body values the result can be
negative (see the counterexample). -/
theorem c6_result_nonneg_of_wellformed (env : Upstream) (n : Nat)
    (hp : ∀ k, (env.primary k).bodyNonneg)
    (hf : ∀ k, (env.fallback k).bodySolvent) :
    0 ≤ (check_balance env n).result :=
  check_balance_nonneg_aux (MAX_RETRIES - n) env n le_rfl hp hf

/-- C6 witness: on a well-formed upstream (final_balance 5, funded 9,
spent 4) the result from retry 0 is non-negative. -/
theorem c6_witness : 0 ≤ (check_balance envC6w 0).result :=
  c6_result_nonneg_of_wellformed envC6w 0
    (fun _ => by simp [envC6w, PrimaryResponse.bodyNonneg])
    (fun _ => by simp [envC6w, FallbackResult.bodySolvent])

/-- Auxiliary fuel induction for C7: check_balance makes at most
MAX_RETRIES - n primary requests from retry count n. -/
theorem check_balance_primaryCalls_aux (m : Nat) : ∀ (env : Upstream) (n : Nat),
    MAX_RETRIES - n ≤ m →
    (check_balance env n).primaryCalls ≤ MAX_RETRIES - n := by
  induction m with
  | zero =>
    intro env n hm
    rw [check_balance_ge env n (by omega)]
    simp
  | succ m ih =>
    intro env n hm
    by_cases hn : MAX_RETRIES ≤ n
    · rw [check_balance_ge env n hn]
      simp
    · have hpc := attempt_step_primaryCalls (env.primary n) (env.fallback n)
      cases hstep : attempt_step (env.primary n) (env.fallback n) with
      | mk t errs slps pc fc =>
        rw [hstep] at hpc
        simp only [StepOut.primaryCalls] at hpc
        cases t with
        | some r =>
          rw [check_balance_done env n (by omega) r errs slps pc fc hstep]
          simp only [Outcome.primaryCalls]
          omega
        | none =>
          rw [check_balance_retry env n (by omega) errs slps pc fc hstep]
          have hrec := ih env (n + 1) (by omega)
          simp only [Outcome.prepend, Outcome.primaryCalls]
          omega

/-- C7: for every upstream behaviour (including permanently failing
ones) and every starting retry count n, check_balance terminates — it is
a total function of the embedding, with each retrying transition
incrementing the retry counter and retry counter at least MAX_RETRIES
terminal — and it makes at most MAX_RETRIES - n primary requests (in
particular at most MAX_RETRIES - n when n < MAX_RETRIES, and none once
the counter is exhausted). -/
theorem c7_primary_request_bound (env : Upstream) (n : Nat) :
    (check_balance env n).primaryCalls ≤ MAX_RETRIES - n :=
  check_balance_primaryCalls_aux (MAX_RETRIES - n) env n le_rfl

/-- C8: in every scan-loop iteration that obtains a non-null address, a
FoundRecord is written via save_found_address if and only if the
resolution terminated with balance > 0; iterations resolving to balance 0
(or less) leave the found-addresses log unchanged. -/
theorem c8_found_record_iff_positive_balance (env : Upstream)
    (c : Credential) (st : ScanState) :
    (scan_iteration env (some c) st).found_log
      = st.found_log ++
          (if 0 < (check_balance env 0).result then
            [⟨c.address, (check_balance env 0).result, c.phrase, c.private_key⟩]
          else []) := by
  simp only [scan_iteration, save_found_address]
  by_cases hb : 0 < (check_balance env 0).result
  · simp [hb]
  · simp [hb]

/-- check_balance against envC9 (primary 500 forever): three SERVER_ERROR
records, one MAX_RETRIES_EXCEEDED record, three retry sleeps, result 0. -/
theorem check_balance_envC9_eval :
    check_balance envC9 0 =
      ⟨0, [⟨.SERVER_ERROR, "Status: " ++ toString (500 : Nat)⟩,
           ⟨.SERVER_ERROR, "Status: " ++ toString (500 : Nat)⟩,
           ⟨.SERVER_ERROR, "Status: " ++ toString (500 : Nat)⟩,
           ⟨.MAX_RETRIES_EXCEEDED, "Maximum retries exceeded"⟩],
        [BALANCE_RETRY_DELAY, BALANCE_RETRY_DELAY, BALANCE_RETRY_DELAY],
        3, 0⟩ := by
  rw [check_balance_retry envC9 0 (by decide) _ _ _ _
        (attempt_step_server 500 none _ (by omega)),
      check_balance_retry envC9 1 (by decide) _ _ _ _
        (attempt_step_server 500 none _ (by omega)),
      check_balance_retry envC9 2 (by decide) _ _ _ _
        (attempt_step_server 500 none _ (by omega)),
      check_balance_ge envC9 3 (by decide)]
  rfl

/-- C9: on a scan-loop iteration with a generated credential whose
resolution logs four ErrorRecords (primary 500 on every attempt), the
generated counter increments to 1 and the found counter stays 0 as the
claim says, and the four errors are appended to the error log — but
error_count remains 0: main initializes and prints it without ever
incrementing it, contradicting the claim that the errors counter
increments when an ErrorRecord is logged during the iteration. -/
theorem c9_error_counter_never_incremented :
    (scan_iteration envC9 (some credC9) scanState0).total_generated = 1 ∧
    (scan_iteration envC9 (some credC9) scanState0).found_with_balance = 0 ∧
    (scan_iteration envC9 (some credC9) scanState0).error_log.length = 4 ∧
    (scan_iteration envC9 (some credC9) scanState0).error_count = 0 := by
  simp only [scan_iteration, check_balance_envC9_eval]
  decide

/-- C10 counterexample: with the fallback provider itself answering 429
(a completed request, no exception raised), the RATE_LIMIT record's
detail still reads "Status: 429" — so the detail does not read
"Status: 429" only when the fallback call raised an exception. -/
theorem c10_counterexample :
    envC10.fallback 0 = .ok 429 none ∧
    fallbackRaises (envC10.fallback 0) = false ∧
    (⟨.RATE_LIMIT, "Status: 429"⟩ : ErrorRecord)
      ∈ (check_balance envC10 0).errors := by
  have h1 : check_balance envC10 0 =
      Outcome.prepend [⟨.RATE_LIMIT, "Status: " ++ toString (429 : Nat)⟩]
        [185] 1 1 (check_balance envC10 1) :=
    check_balance_retry envC10 0 (by decide) _ _ _ _
      (attempt_step_429_fb_status none 429 none (by decide))
  have h2 : check_balance envC10 1 = ⟨0, [], [], 1, 0⟩ :=
    check_balance_done envC10 1 (by decide) _ _ _ _ _ (attempt_step_404 none _)
  rw [h1, h2]
  refine ⟨rfl, rfl, ?_⟩
  decide

/-- C10 amended: when the primary responds 429 and the fallback call
fails, the RATE_LIMIT record's detail reports the fallback response's
status code whenever the fallback request completed (the response
variable is reused for the fallback call), and it reports status 429
when the fallback request raised an exception (the variable still holds
the primary's 429 response); so a detail of "Status: 429" means the
fallback either raised or itself returned 429. -/
theorem c10_rate_limit_detail_reports_fallback_status (env : Upstream)
    (n : Nat) (pb : Option PrimaryBody) (h1 : n < MAX_RETRIES)
    (h2 : env.primary n = .ok 429 pb)
    (h3 : fallbackFails (env.fallback n) = true) :
    (∀ c b, env.fallback n = .ok c b →
      (⟨.RATE_LIMIT, "Status: " ++ toString c⟩ : ErrorRecord)
        ∈ (check_balance env n).errors) ∧
    (∀ msg, env.fallback n = .exc msg →
      (⟨.RATE_LIMIT, "Status: " ++ toString (429 : Nat)⟩ : ErrorRecord)
        ∈ (check_balance env n).errors) := by
  constructor
  · intro c b hfb
    by_cases hc : c = 200
    · subst hc
      cases b with
      | some fb =>
        rw [hfb] at h3
        simp [fallbackFails] at h3
      | none =>
        rw [check_balance_retry env n h1 _ _ _ _
              (by rw [h2, hfb, attempt_step_429_fb_badjson])]
        simp [Outcome.prepend]
    · rw [check_balance_retry env n h1 _ _ _ _
            (by rw [h2, hfb]; exact attempt_step_429_fb_status _ _ _ hc)]
      simp [Outcome.prepend]
  · intro msg hfb
    rw [check_balance_retry env n h1 _ _ _ _
          (by rw [h2, hfb, attempt_step_429_fb_exc])]
    simp [Outcome.prepend]

/-- C10 witness: on envC10 (primary 429, fallback completing with 429),
the RATE_LIMIT record reporting the fallback's status is in the log. -/
theorem c10_witness :
    (⟨.RATE_LIMIT, "Status: " ++ toString (429 : Nat)⟩ : ErrorRecord)
      ∈ (check_balance envC10 0).errors :=
  (c10_rate_limit_detail_reports_fallback_status envC10 0 none
      (by decide) rfl rfl).1 429 none rfl
